import Mathlib

/-
  Verification development for the OCR-and-translate pipeline
  (src/streamlit_app.py).  The Python source is shallowly embedded:
  pure functions become Lean functions, session state and file state
  become explicit state passing, and the external collaborators
  (hashlib digest, PIL, the OCR and translation HTTP services, the
  wall clock) become parameters collected in an environment record.
  Bytes are modelled as lists of natural byte values.
-/

namespace OCRApp

/-- Raw byte content of an uploaded document. -/
abbrev Bytes := List Nat

/-- Bool test that the second list begins with the first list,
    mirroring the Python bytes startswith method. -/
def startsWithBytes : Bytes → Bytes → Bool
  | [], _ => true
  | _ :: _, [] => false
  | p :: ps, b :: bs => p == b && startsWithBytes ps bs

/-- The three JPEG SOI marker bytes FF D8 FF tested at line 143. -/
def jpegMagic : Bytes := [255, 216, 255]

/-- The four bytes of the PDF magic, percent P D F, tested at lines 145 and 259. -/
def pdfMagic : Bytes := [37, 80, 68, 70]

/-- Bool test that a character list begins with another character list. -/
def startsWithChars : List Char → List Char → Bool
  | [], _ => true
  | _ :: _, [] => false
  | p :: ps, b :: bs => p == b && startsWithChars ps bs

/-- Substring containment over character lists, mirroring the Python
    infix membership test on strings used at line 185. -/
def containsSub (needle : List Char) : List Char → Bool
  | [] => needle.isEmpty
  | b :: bs => startsWithChars needle (b :: bs) || containsSub needle bs

/-- The Python strip method of line 196: remove leading and trailing
    whitespace.  Implemented structurally over the character list. -/
def pyStrip (s : String) : String :=
  String.mk (((s.data.dropWhile Char.isWhitespace).reverse.dropWhile
    Char.isWhitespace).reverse)

/-- The exact Cyrillic alphabet string the source compares characters
    against at lines 107, 314, 318 and 988. -/
def cyrillicLetters : String :=
  "абвгдеёжзийклмнопрстуфхцчшщъыьэюяАБВГДЕЁЖЗИЙКЛМНОПРСТУФХЦЧШЩЪЫЬЭЮЯ"

/-- Membership of a character in the Cyrillic alphabet string. -/
def isCyrillicChar (c : Char) : Bool := cyrillicLetters.data.contains c

/-- The lowercase-then-compare test of line 319.  The Python lower
    method is Unicode aware; only its ASCII fragment can influence the
    a..z comparison for the scripts this program handles, so the Lean
    ASCII toLower is an adequate embedding here. -/
def isLatinChar (c : Char) : Bool :=
  decide ('a' ≤ c.toLower) && decide (c.toLower ≤ 'z')

/-- Count of Cyrillic characters, line 318. -/
def countCyrillic (text : String) : Nat := text.data.countP isCyrillicChar

/-- Count of Latin a..z characters, line 319. -/
def countLatin (text : String) : Nat := text.data.countP isLatinChar

/-- Language detection as implemented inline in process_image at
    lines 310 to 323: default English, switch to Russian when any
    Cyrillic character occurs, then switch to Russian again when the
    Cyrillic count exceeds the Latin count.  Note that the second test
    never switches back to English. -/
def detect_language (text : String) : String :=
  let d0 := "en"
  let d1 := if text.data.any isCyrillicChar then "ru" else d0
  if countLatin text < countCyrillic text then "ru" else d1

/-- The language classifier as the specification describes it: compare
    the two counts only.  This definition follows the words of the spec
    and is kept separate so it can be compared against the source
    behaviour. -/
def detectLanguageSpec (text : String) : String :=
  if countLatin text < countCyrillic text then "ru" else "en"

/-- The Cyrillic dominance notion of the spec, stated as a Bool. -/
def cyrillicDominantSpec (text : String) : Bool :=
  decide (countLatin text < countCyrillic text)

/-- File size validation of lines 252 to 254: at most one megabyte. -/
def check_file_size (file_data : Bytes) : Bool :=
  file_data.length ≤ 1 * 1024 * 1024

/-- Extension after the last dot of a file name, or none when the name
    has no dot, mirroring the rsplit call of line 250. -/
def afterLastDot : List Char → Option (List Char)
  | [] => none
  | c :: rest =>
    match afterLastDot rest with
    | some t => some t
    | none => if c = '.' then some rest else none

/-- The allowed extension set of line 250. -/
def allowedExtensions : List String := ["png", "jpg", "jpeg", "pdf"]

/-- File name validation of lines 249 to 250: the name has a dot and
    the lowercased text after the last dot is an allowed extension. -/
def is_allowed_file (filename : String) : Bool :=
  match afterLastDot filename.data with
  | none => false
  | some ext => allowedExtensions.contains (String.mk (ext.map Char.toLower))

/-- The persisted statistics snapshot of lines 221 to 246. -/
structure Stats where
  total_processed : Nat
  total_success : Nat
  total_failed : Nat
  total_size : Nat
  last_processed : Option String
  deriving DecidableEq

/-- The zero snapshot written when the stats file does not exist yet,
    lines 222 to 229 and 416 to 422. -/
def initStats : Stats :=
  { total_processed := 0, total_success := 0, total_failed := 0
    total_size := 0, last_processed := none }

/-- Load or initialize the snapshot, as both update_stats and
    load_stats do.  The persisted file is an Option. -/
def load_stats (file : Option Stats) : Stats := file.getD initStats

/-- One statistics update, lines 221 to 246: load or initialize,
    increment total_processed, increment exactly one of total_success
    or total_failed, add the byte size, stamp the time label. -/
def update_stats (success : Bool) (file_size : Nat) (now : String)
    (file : Option Stats) : Stats :=
  let s := load_stats file
  { total_processed := s.total_processed + 1
    total_success := s.total_success + (if success then 1 else 0)
    total_failed := s.total_failed + (if success then 0 else 1)
    total_size := s.total_size + file_size
    last_processed := some now }

/-- Sequential application of update_stats to a list of attempts, each
    given as a success flag and a byte size, with a fixed time label. -/
def statsAfter (label : String) (calls : List (Bool × Nat))
    (file : Option Stats) : Option Stats :=
  calls.foldl (fun st c => some (update_stats c.1 c.2 label st)) file

/-- The per-minute admission quota of line 1265. -/
def RATE_LIMIT : Nat := 10

/-- The sliding window admission check of lines 1269 to 1276: drop
    window entries whose age is 60 seconds or more, deny when the
    quota is already reached, otherwise append the current time and
    admit.  Returns the decision and the updated window. -/
def check_rate_limit (now : ℚ) (window : List ℚ) : Bool × List ℚ :=
  let kept := window.filter (fun t => decide (now - t < 60))
  if RATE_LIMIT ≤ kept.length then (false, kept)
  else (true, kept ++ [now])

/-- Run a sequence of admission checks at the given call times,
    threading the window, and collect the decisions. -/
def rateRun : List ℚ → List ℚ → List Bool × List ℚ
  | [], window => ([], window)
  | t :: ts, window =>
    let c := check_rate_limit t window
    let r := rateRun ts c.2
    (c.1 :: r.1, r.2)

/-- Abstraction of a decoded PIL image: its pixel dimensions and its
    color mode string. -/
structure PILImage where
  width : Nat
  height : Nat
  mode : String
  deriving DecidableEq

/-- Abstraction of the PIL library boundary: decoding bytes may fail
    and so may re-encoding an image, both raising in Python; failure is
    an Option none here. -/
structure PILModel where
  decode : Bytes → Option PILImage
  encodeJpeg : PILImage → Option Bytes

/-- The thumbnail call of lines 266 to 267: when either dimension
    exceeds 2000 pixels, shrink to fit within 2000 by 2000 preserving
    the aspect ratio.  The exact PIL rounding of the scaled dimension
    is immaterial to every claim; integer division stands in for it. -/
def thumbnailFit (img : PILImage) : PILImage :=
  if img.width ≤ 2000 && img.height ≤ 2000 then img
  else if img.height ≤ img.width then
    { img with width := 2000, height := max 1 (img.height * 2000 / img.width) }
  else
    { img with width := max 1 (img.width * 2000 / img.height), height := 2000 }

/-- The mode conversion of lines 270 to 278: an RGBA image is pasted
    over a white background yielding RGB, and any other non RGB mode is
    converted to RGB. -/
def convertModeRGB (img : PILImage) : PILImage :=
  if img.mode = "RGBA" then { img with mode := "RGB" }
  else if img.mode = "RGB" then img
  else { img with mode := "RGB" }

/-- The image transformation between decode and save in
    optimize_image: thumbnail first, then mode conversion. -/
def pilTransform (img : PILImage) : PILImage := convertModeRGB (thumbnailFit img)

/-- optimize_image, lines 256 to 287: PDF content is returned
    unchanged; otherwise decode, transform and re-encode as JPEG; any
    decode or encode failure is caught and the original bytes are
    returned unchanged. -/
def optimize_image (pil : PILModel) (image_data : Bytes) : Bytes :=
  if startsWithBytes pdfMagic image_data then image_data
  else
    match pil.decode image_data with
    | none => image_data
    | some img =>
      match pil.encodeJpeg (pilTransform img) with
      | none => image_data
      | some out => out

/-- Content sniffing of lines 141 to 146: jpg when the bytes start
    with FF D8 FF, else pdf when they start with the PDF magic, else
    png by default. -/
def sniffFileType (image_data : Bytes) : String :=
  if startsWithBytes jpegMagic image_data then "jpg"
  else if startsWithBytes pdfMagic image_data then "pdf"
  else "png"

/-- The form fields of the request sent to the recognition service,
    lines 148 to 165.  The base64 payload is carried as the raw bytes;
    base64 transport is an injective encoding and is omitted. -/
structure OcrRequest where
  dataUriHead : String
  payload : Bytes
  language : String
  filetype : String
  ocrEngine : Nat
  detectOrientation : Bool
  scale : Bool
  isTable : Bool
  deriving DecidableEq

/-- Build the recognition request exactly as lines 141 to 165 do: the
    data URI head and the filetype field both come from the sniffed
    label, and the language field is eng for en and auto otherwise. -/
def build_ocr_request (image_data : Bytes) (language : String) : OcrRequest :=
  { dataUriHead := "data:image/" ++ sniffFileType image_data ++ ";base64,"
    payload := image_data
    language := if language = "en" then "eng" else "auto"
    filetype := (sniffFileType image_data).toUpper
    ocrEngine := 2
    detectOrientation := true
    scale := true
    isTable := false }

/-- The recognition service HTTP response as the code consumes it. -/
structure OcrResponse where
  status : Nat
  isErroredOnProcessing : Bool
  errorMessage : String
  parsedText : String
  deriving DecidableEq

/-- The failure taxonomy of ocr_space_recognize, distinguished in the
    source only by the raised message text: missing key, invalid key,
    non 200 status, and service side processing failure. -/
inductive OcrError where
  | configError
  | authError
  | transientError (status : Nat)
  | processingError (message : String)
  deriving DecidableEq

/-- The outcome of one call to ocr_space_recognize: the result, the
    API key left in the session afterwards, and whether an HTTP
    request was issued. -/
structure OcrStep where
  result : Except OcrError String
  newKey : Option String
  networkCalled : Bool

/-- ocr_space_recognize, lines 135 to 199: fail before any network
    call when no key is configured; send the request; on status 401 or
    403 clear the key and fail as auth; on any other non 200 status
    fail as transient; on a 200 errored response whose message
    contains the words Unauthorized request clear the key and fail as
    auth, otherwise fail as processing; on success return the parsed
    text stripped of surrounding whitespace. -/
def ocr_space_recognize (key : Option String)
    (respond : OcrRequest → OcrResponse)
    (image_data : Bytes) (language : String) : OcrStep :=
  match key with
  | none => { result := .error .configError, newKey := none, networkCalled := false }
  | some k =>
    let resp := respond (build_ocr_request image_data language)
    if resp.status = 401 || resp.status = 403 then
      { result := .error .authError, newKey := none, networkCalled := true }
    else if resp.status ≠ 200 then
      { result := .error (.transientError resp.status), newKey := some k, networkCalled := true }
    else if resp.isErroredOnProcessing then
      if containsSub "Unauthorized request".data resp.errorMessage.data then
        { result := .error .authError, newKey := none, networkCalled := true }
      else
        { result := .error (.processingError resp.errorMessage), newKey := some k, networkCalled := true }
    else
      { result := .ok (pyStrip resp.parsedText), newKey := some k, networkCalled := true }

/-- One cached recognition result, the dict of lines 325 to 330. -/
structure CacheEntry where
  text : String
  processing_time : String
  language : String
  detected_language : String
  deriving DecidableEq

/-- The supported language display names of lines 68 to 83. -/
def SUPPORTED_LANGUAGES : List (String × String) :=
  [("en", "Английский"), ("ru", "Русский"), ("de", "Немецкий"),
   ("fr", "Французский"), ("es", "Испанский"), ("it", "Итальянский"),
   ("pt", "Португальский"), ("nl", "Нидерландский"), ("pl", "Польский"),
   ("uk", "Украинский"), ("ja", "Японский"), ("ko", "Корейский"),
   ("zh", "Китайский"), ("ar", "Арабский")]

/-- Display name lookup with the default of line 328. -/
def supportedLanguageName (code : String) : String :=
  (SUPPORTED_LANGUAGES.lookup code).getD "Автоопределение"

/-- The content digest of lines 202 to 204.  The md5 hex digest is an
    external deterministic digest; it is a parameter of the model. -/
def get_cache_key (md5hex : Bytes → String) (image_data : Bytes) : String :=
  md5hex image_data

/-- Cache write of lines 206 to 210, one entry per digest, last write
    wins: the fresh pair is consed in front and lookup takes the first
    match. -/
def save_to_cache (md5hex : Bytes → String) (image_data : Bytes)
    (result : CacheEntry) (cache : List (String × CacheEntry)) :
    List (String × CacheEntry) :=
  (get_cache_key md5hex image_data, result) :: cache

/-- Cache read of lines 212 to 218. -/
def get_from_cache (md5hex : Bytes → String) (image_data : Bytes)
    (cache : List (String × CacheEntry)) : Option CacheEntry :=
  cache.lookup (get_cache_key md5hex image_data)

/-- The settings dict passed to process_image, lines 864 to 871 and
    917 to 924.  The enhance contrast and remove noise flags are dead
    parameters of the actual call. -/
structure Settings where
  use_cache : Bool
  optimize : Bool
  enhance_contrast : Bool
  remove_noise : Bool

/-- The default setting values of the sidebar checkboxes, lines 817
    to 826, which are also the dict get defaults inside
    process_image. -/
def defaultSettings : Settings :=
  { use_cache := true, optimize := true
    enhance_contrast := false, remove_noise := false }

/-- The external collaborators of the pipeline: the md5 digest, the
    PIL library, the recognition service, the wall clock and the two
    formatted time labels. -/
structure Env where
  md5hex : Bytes → String
  pil : PILModel
  respond : OcrRequest → OcrResponse
  clock : Nat → ℚ
  nowLabel : String
  procTimeLabel : String

/-- The mutable state the pipeline touches: the session API key, the
    cache directory, the rate limit window with its call counter, the
    stats file, the history directory, and an instrumentation counter
    of recognition service HTTP calls. -/
structure AppState where
  apiKey : Option String
  cache : List (String × CacheEntry)
  recCalls : Nat
  rateWindow : List ℚ
  step : Nat
  stats : Option Stats
  history : List (String × String)

/-- process_image, lines 290 to 338: consult the cache under the
    digest of the incoming bytes when caching is on; on a miss,
    optionally optimize, recognize, detect the language, build the
    result entry; when caching is on, store the entry under the digest
    of the current image_data variable, which at that point holds the
    optimized bytes.  Every raise inside is caught and returned as an
    error result; the key cleared by the recognizer stays cleared. -/
def process_image (env : Env) (settings : Settings) (image_data : Bytes)
    (s : AppState) : Except OcrError CacheEntry × AppState :=
  let cached := if settings.use_cache
    then get_from_cache env.md5hex image_data s.cache else none
  match cached with
  | some r => (.ok r, s)
  | none =>
    let image_data2 := if settings.optimize
      then optimize_image env.pil image_data else image_data
    let step := ocr_space_recognize s.apiKey env.respond image_data2 "auto"
    let s1 : AppState := { s with
      apiKey := step.newKey
      recCalls := s.recCalls + (if step.networkCalled then 1 else 0) }
    match step.result with
    | .error e => (.error e, s1)
    | .ok text =>
      let lang := detect_language text
      let result : CacheEntry :=
        { text := text, processing_time := env.procTimeLabel
          language := supportedLanguageName lang, detected_language := lang }
      let s2 := if settings.use_cache
        then { s1 with cache := save_to_cache env.md5hex image_data2 result s1.cache }
        else s1
      (.ok result, s2)

/-- One uploaded batch item: the file name and its bytes. -/
structure BatchItem where
  name : String
  data : Bytes
  deriving DecidableEq

/-- The per item outcome of the uploaded files batch loop. -/
inductive ItemOutcome where
  | rateLimited
  | tooLarge
  | failed (e : OcrError)
  | done (entry : CacheEntry)
  deriving DecidableEq

/-- State change done by a check_rate_limit call inside the batch
    loop: the filtered window (plus the admission when admitted) is
    written back and the clock advances to the next tick. -/
def rateAdvance (env : Env) (s : AppState) : AppState :=
  { s with rateWindow := (check_rate_limit (env.clock s.step) s.rateWindow).2
           step := s.step + 1 }

/-- State change done by an update_stats call inside the batch loop. -/
def statRecord (env : Env) (success : Bool) (file_size : Nat)
    (s : AppState) : AppState :=
  { s with stats := some (update_stats success file_size env.nowLabel s.stats) }

/-- save_to_history, lines 341 to 384, reduced to the fields the
    claims mention: append the recognized text and its language label
    to the history collection. -/
def save_to_history (text : String) (language : String) (s : AppState) : AppState :=
  { s with history := s.history ++ [(text, language)] }

/-- The uploaded files batch loop of lines 906 to 945: for each item,
    consult the rate limiter and stop the whole loop when denied; skip
    an oversized item before any further work; otherwise run
    process_image, record the attempt in the stats, and append a
    history record on success.  Per item failures of any kind do not
    stop the loop. -/
def runBatch (env : Env) (settings : Settings) :
    List BatchItem → AppState → List (String × ItemOutcome) × AppState
  | [], s => ([], s)
  | item :: rest, s =>
    let c := check_rate_limit (env.clock s.step) s.rateWindow
    let s0 := rateAdvance env s
    if c.1 = false then ([(item.name, ItemOutcome.rateLimited)], s0)
    else if check_file_size item.data = false then
      let r := runBatch env settings rest s0
      ((item.name, ItemOutcome.tooLarge) :: r.1, r.2)
    else
      let pr := process_image env settings item.data s0
      match pr.1 with
      | .ok entry =>
        let s2 := save_to_history entry.text entry.detected_language
          (statRecord env true item.data.length pr.2)
        let r := runBatch env settings rest s2
        ((item.name, ItemOutcome.done entry) :: r.1, r.2)
      | .error e =>
        let s2 := statRecord env false item.data.length pr.2
        let r := runBatch env settings rest s2
        ((item.name, ItemOutcome.failed e) :: r.1, r.2)

/-- The file uploader widget of lines 896 to 900 admits only files
    whose extension is png, jpg, jpeg or pdf; this models its type
    argument as a filter over the offered files. -/
def uploadedFileFilter (files : List BatchItem) : List BatchItem :=
  files.filter (fun f => is_allowed_file f.name)

/-- The query parameters of the translation request, lines 115 to 122. -/
structure TranslateRequest where
  client : String
  sl : String
  tl : String
  dt : String
  q : String
  deriving DecidableEq

/-- Request construction inside translate_text, lines 104 to 122: the
    caller supplied direction arguments are overwritten before use; the
    direction becomes ru to en when the text contains any Cyrillic
    character and en to ru otherwise. -/
def translate_request (text : String) (source_lang target_lang : String) :
    TranslateRequest :=
  let p := if text.data.any isCyrillicChar then ("ru", "en") else ("en", "ru")
  { client := "gtx", sl := p.1, tl := p.2, dt := "t", q := text }

/-- translate_text, lines 104 to 132: send the request; on status 200
    join the translated chunks of the response, otherwise return a
    human readable error string carrying the status code. -/
def translate_text (respond : TranslateRequest → Nat × List String)
    (text : String) (source_lang target_lang : String) : String :=
  let r := respond (translate_request text source_lang target_lang)
  if r.1 = 200 then String.join r.2
  else "Ошибка перевода: " ++ toString r.1

/-- Injective printable stand in for the md5 hex digest used when the
    model is run on concrete inputs: the comma separated byte values.
    Only determinism and collision freedom of the digest matter. -/
def bytesKey (bs : Bytes) : String :=
  String.join (bs.map (fun b => toString b ++ ","))

/-- A PIL model in which every decode fails, as it does on bytes that
    are not a valid raster image. -/
def pilFail : PILModel :=
  { decode := fun _ => none, encodeJpeg := fun _ => none }

/-- A small stand in for a valid PNG file: the eight PNG signature
    bytes followed by one content byte. -/
def pngExample : Bytes := [137, 80, 78, 71, 13, 10, 26, 10, 0]

/-- A PIL model that decodes exactly the example PNG, to a small RGB
    image, and encodes images to JPEG bytes that begin with the JPEG
    SOI marker, as every real JPEG stream does. -/
def pilPng : PILModel :=
  { decode := fun bs => if bs = pngExample then some ⟨10, 10, "RGB"⟩ else none
    encodeJpeg := fun img => some (jpegMagic ++ [img.width, img.height]) }

/-- A fresh application state: a configured key, empty cache, empty
    rate window, no stats file, empty history. -/
def state0 : AppState :=
  { apiKey := some "k", cache := [], recCalls := 0
    rateWindow := [], step := 0, stats := none, history := [] }

/-- Environment for concrete runs of the single item flow: the
    recognition service accepts every request and returns the text
    hello. -/
def envOk : Env :=
  { md5hex := bytesKey, pil := pilPng
    respond := fun _ => { status := 200, isErroredOnProcessing := false
                          errorMessage := "", parsedText := "hello" }
    clock := fun _ => 0, nowLabel := "2026-10-12 00:00:00"
    procTimeLabel := "1.00 секунд" }

/-- Environment for concrete runs in which the recognition service
    answers every request with HTTP status 403. -/
def envAuth : Env :=
  { md5hex := bytesKey, pil := pilFail
    respond := fun _ => { status := 403, isErroredOnProcessing := false
                          errorMessage := "", parsedText := "" }
    clock := fun _ => 0, nowLabel := "2026-10-12 00:00:00"
    procTimeLabel := "1.00 секунд" }

/-- A membership test never finding an element forces its count to be
    zero. -/
lemma countP_eq_zero_of_any_eq_false {α : Type} (l : List α) (p : α → Bool)
    (h : l.any p = false) : l.countP p = 0 := by
  induction l with
  | nil => rfl
  | cons a t ih =>
    simp only [List.any_cons, Bool.or_eq_false_iff] at h
    simp [List.countP_cons, h.1, ih h.2]

/-- C2 counterexample: the text with two Cyrillic and five Latin
    characters is classified as Russian by the code, not English as
    the claim states, because the presence test of line 314 already
    switched the result to Russian and the count comparison of line
    322 never switches it back. -/
theorem detect_language_claim_cex :
    countCyrillic "абabcde" = 2 ∧ countLatin "абabcde" = 5 ∧
    detect_language "абabcde" = "ru" ∧ detect_language "абabcde" ≠ "en" ∧
    detectLanguageSpec "абabcde" = "en" := by
  refine ⟨by decide, by decide, by decide, by decide, by decide⟩

/-- C2 amended: the detected language of process_image is ru exactly
    when the text contains at least one Cyrillic character and en
    otherwise; in particular the empty text gives en, a text with five
    Cyrillic and two Latin characters gives ru, and a text with two
    Cyrillic and five Latin characters also gives ru. -/
theorem detect_language_presence_rule :
    (∀ text : String,
       detect_language text =
         (if text.data.any isCyrillicChar then "ru" else "en")) ∧
    detect_language "" = "en" ∧ detect_language "абвгдab" = "ru" := by
  refine ⟨fun text => ?_, by decide, by decide⟩
  unfold detect_language
  cases h : text.data.any isCyrillicChar with
  | true => simp [h]
  | false =>
    have hz : countCyrillic text = 0 :=
      countP_eq_zero_of_any_eq_false _ _ h
    simp [h, hz]

/-- C4 counterexample: the text with one Cyrillic and two Latin
    characters is not Cyrillic dominant, so the claim predicts the
    English to Russian direction, yet the code sends Russian to
    English because line 107 tests mere presence of a Cyrillic
    character. -/
theorem translate_direction_claim_cex :
    cyrillicDominantSpec "дab" = false ∧
    (translate_request "дab" "en" "ru").sl = "ru" ∧
    (translate_request "дab" "en" "ru").tl = "en" := by
  refine ⟨by decide, by decide, by decide⟩

/-- C4 amended: translate_text ignores the caller supplied source and
    target hints entirely, issuing the same request and returning the
    same result for any two hint pairs; the direction it chooses is
    Russian to English exactly when the text contains at least one
    Cyrillic character and English to Russian otherwise. -/
theorem translate_hint_independence :
    ∀ (respond : TranslateRequest → Nat × List String)
      (text s1 t1 s2 t2 : String),
      translate_text respond text s1 t1 = translate_text respond text s2 t2 ∧
      translate_request text s1 t1 = translate_request text s2 t2 ∧
      ((translate_request text s1 t1).sl, (translate_request text s1 t1).tl) =
        (if text.data.any isCyrillicChar then ("ru", "en") else ("en", "ru")) := by
  intro respond text s1 t1 s2 t2
  refine ⟨rfl, rfl, ?_⟩
  unfold translate_request
  cases h : text.data.any isCyrillicChar <;> simp [h]

/-- C5: on every call the rate limiter first discards window entries
    60 seconds old or older, admits exactly when fewer than 10 entries
    remain, appending the current time, and denies without appending
    otherwise; in the concrete scenario of ten admissions within one
    second the eleventh call is denied and a call 61 seconds after the
    first admission is admitted again. -/
theorem rate_limit_algorithm_rules :
    (∀ (now : ℚ) (w : List ℚ),
       ((check_rate_limit now w).1 = true ↔
         (w.filter (fun t => decide (now - t < 60))).length < RATE_LIMIT) ∧
       ((check_rate_limit now w).1 = true →
         (check_rate_limit now w).2 =
           w.filter (fun t => decide (now - t < 60)) ++ [now]) ∧
       ((check_rate_limit now w).1 = false →
         (check_rate_limit now w).2 =
           w.filter (fun t => decide (now - t < 60)))) ∧
    (rateRun [0, 0, 0, 0, 0, 0, 0, 0, 0, 0, 1, 61] []).1 =
      [true, true, true, true, true, true, true, true, true, true,
       false, true] := by
  constructor
  · intro now w
    by_cases h : RATE_LIMIT ≤ (w.filter (fun t => decide (now - t < 60))).length
    · refine ⟨?_, ?_, ?_⟩ <;> simp [check_rate_limit, h, Nat.not_lt.mpr h]
    · refine ⟨?_, ?_, ?_⟩ <;> simp [check_rate_limit, h, Nat.lt_of_not_le h]
  · norm_num [rateRun, check_rate_limit, RATE_LIMIT, List.filter]

/-- C5 witness: the general clauses applied at concrete inputs, a full
    window of ten zero timestamps being denied without an append, and
    an empty window being admitted. -/
theorem rate_limit_algorithm_rules_witness :
    (check_rate_limit 0 [0, 0, 0, 0, 0, 0, 0, 0, 0, 0]).2 =
      ([0, 0, 0, 0, 0, 0, 0, 0, 0, 0] : List ℚ).filter
        (fun t => decide ((0 : ℚ) - t < 60)) ∧
    (check_rate_limit 0 []).2 =
      ([] : List ℚ).filter (fun t => decide ((0 : ℚ) - t < 60)) ++ [0] := by
  constructor
  · exact (rate_limit_algorithm_rules.1 0 _).2.2
      (by norm_num [check_rate_limit, RATE_LIMIT, List.filter])
  · exact (rate_limit_algorithm_rules.1 0 _).2.1
      (by norm_num [check_rate_limit, RATE_LIMIT, List.filter])

/-- Splitting a count over a Bool predicate and its negation covers
    the whole list. -/
lemma countP_add_countP_not {α : Type} (l : List α) (p : α → Bool) :
    l.countP p + l.countP (fun a => !(p a)) = l.length := by
  induction l with
  | nil => rfl
  | cons a t ih =>
    cases h : p a <;> simp [List.countP_cons, h] <;> omega

/-- Unfolding one step of statsAfter. -/
lemma statsAfter_cons (label : String) (c : Bool × Nat)
    (cs : List (Bool × Nat)) (file : Option Stats) :
    statsAfter label (c :: cs) file =
      statsAfter label cs (some (update_stats c.1 c.2 label file)) := rfl

/-- Running totals of the snapshot after a sequence of updates. -/
lemma statsAfter_counts (label : String) (cs : List (Bool × Nat)) :
    ∀ file : Option Stats,
      (load_stats (statsAfter label cs file)).total_processed =
        (load_stats file).total_processed + cs.length ∧
      (load_stats (statsAfter label cs file)).total_success =
        (load_stats file).total_success + cs.countP (fun c => c.1) ∧
      (load_stats (statsAfter label cs file)).total_failed =
        (load_stats file).total_failed + cs.countP (fun c => !c.1) ∧
      (load_stats (statsAfter label cs file)).total_size =
        (load_stats file).total_size + (cs.map (fun c => c.2)).sum := by
  induction cs with
  | nil => intro file; simp [statsAfter]
  | cons c t ih =>
    intro file
    rw [statsAfter_cons]
    obtain ⟨h1, h2, h3, h4⟩ := ih (some (update_stats c.1 c.2 label file))
    refine ⟨?_, ?_, ?_, ?_⟩
    · rw [h1]; simp [load_stats, update_stats]; omega
    · rw [h2]; simp [load_stats, update_stats, List.countP_cons]
      cases h : c.1 <;> simp [h] <;> omega
    · rw [h3]; simp [load_stats, update_stats, List.countP_cons]
      cases h : c.1 <;> simp [h] <;> omega
    · rw [h4]; simp [load_stats, update_stats]; omega

/-- C6: update_stats increments total_processed by one, exactly one of
    total_success and total_failed, and adds the byte size; therefore
    after any sequence of sequential calls starting from the missing
    snapshot the totals are the number of calls, the number of
    successes, and their difference, and total_size is the byte sum. -/
theorem stats_monotonicity :
    (∀ (success : Bool) (size : Nat) (now : String) (file : Option Stats),
       (update_stats success size now file).total_processed =
         (load_stats file).total_processed + 1 ∧
       (update_stats success size now file).total_success =
         (load_stats file).total_success + (if success then 1 else 0) ∧
       (update_stats success size now file).total_failed =
         (load_stats file).total_failed + (if success then 0 else 1) ∧
       (update_stats success size now file).total_size =
         (load_stats file).total_size + size) ∧
    (∀ (label : String) (calls : List (Bool × Nat)),
       (load_stats (statsAfter label calls none)).total_processed =
         calls.length ∧
       (load_stats (statsAfter label calls none)).total_success =
         calls.countP (fun c => c.1) ∧
       (load_stats (statsAfter label calls none)).total_failed =
         calls.length - calls.countP (fun c => c.1) ∧
       (load_stats (statsAfter label calls none)).total_size =
         (calls.map (fun c => c.2)).sum) := by
  constructor
  · intro success size now file
    exact ⟨rfl, rfl, rfl, rfl⟩
  · intro label calls
    obtain ⟨h1, h2, h3, h4⟩ := statsAfter_counts label calls none
    have hs := countP_add_countP_not calls (fun c => c.1)
    refine ⟨?_, ?_, ?_, ?_⟩
    · rw [h1]; simp [load_stats, initStats]
    · rw [h2]; simp [load_stats, initStats]
    · rw [h3]; simp only [load_stats, initStats, Option.getD]; omega
    · rw [h4]; simp [load_stats, initStats]

/-- C7 counterexample: a response with the 2xx status 201 whose error
    message contains the words Unauthorized request is not treated as
    an auth failure; the code compares the status against 200 only, so
    a 201 lands in the non 200 branch as a transient error and the
    stored key is kept, where the claim demands an auth error and a
    cleared key. -/
theorem ocr_auth_status201_cex :
    (ocr_space_recognize (some "k")
        (fun _ => { status := 201, isErroredOnProcessing := true
                    errorMessage := "Unauthorized request or bad key"
                    parsedText := "" }) [0] "auto").result =
      .error (.transientError 201) ∧
    (ocr_space_recognize (some "k")
        (fun _ => { status := 201, isErroredOnProcessing := true
                    errorMessage := "Unauthorized request or bad key"
                    parsedText := "" }) [0] "auto").newKey = some "k" := by
  exact ⟨rfl, rfl⟩

/-- C7 amended: on status 401 or 403, or on a 200 response whose error
    message contains the words Unauthorized request, the recognizer
    fails as an auth error and clears the stored key, so a subsequent
    call with the cleared key fails before issuing any network
    request, as does any call without a configured key.  A non 200
    status inside 2xx, such as 201, is treated as a transient error
    instead. -/
theorem ocr_auth_error_rules :
    ∀ (k : String) (respond : OcrRequest → OcrResponse)
      (data : Bytes) (lang : String),
      ((ocr_space_recognize none respond data lang).result =
          .error .configError ∧
        (ocr_space_recognize none respond data lang).networkCalled = false ∧
        (ocr_space_recognize none respond data lang).newKey = none) ∧
      ((respond (build_ocr_request data lang)).status = 401 ∨
        (respond (build_ocr_request data lang)).status = 403 →
        (ocr_space_recognize (some k) respond data lang).result =
          .error .authError ∧
        (ocr_space_recognize (some k) respond data lang).newKey = none) ∧
      ((respond (build_ocr_request data lang)).status = 200 →
        (respond (build_ocr_request data lang)).isErroredOnProcessing = true →
        containsSub "Unauthorized request".data
          (respond (build_ocr_request data lang)).errorMessage.data = true →
        (ocr_space_recognize (some k) respond data lang).result =
          .error .authError ∧
        (ocr_space_recognize (some k) respond data lang).newKey = none) := by
  intro k respond data lang
  refine ⟨⟨rfl, rfl, rfl⟩, ?_, ?_⟩
  · intro h
    rcases h with h | h <;>
      simp [ocr_space_recognize, h]
  · intro h200 herr hmsg
    simp [ocr_space_recognize, h200, herr, hmsg]

/-- C7 witness: the amended clauses applied to a service that answers
    403: the call fails as an auth error and clears the key. -/
theorem ocr_auth_error_rules_witness :
    (ocr_space_recognize (some "k")
        (fun _ => { status := 403, isErroredOnProcessing := false
                    errorMessage := "", parsedText := "" }) [0] "auto").result =
      .error .authError ∧
    (ocr_space_recognize (some "k")
        (fun _ => { status := 403, isErroredOnProcessing := false
                    errorMessage := "", parsedText := "" }) [0] "auto").newKey =
      none :=
  (ocr_auth_error_rules "k" _ [0] "auto").2.1 (Or.inr rfl)

/-- C9: optimize_image never fails the pipeline: PDF prefixed input is
    returned unchanged, input whose decode fails is returned
    unchanged, input whose JPEG re-encode fails is returned unchanged,
    and otherwise the result is exactly the JPEG re-encoding of the
    transformed image, which begins with the JPEG marker whenever the
    encoder produces well formed JPEG streams. -/
theorem optimize_image_total_fallback :
    ∀ (pil : PILModel) (data : Bytes),
      (startsWithBytes pdfMagic data = true → optimize_image pil data = data) ∧
      (pil.decode data = none → optimize_image pil data = data) ∧
      (∀ img, pil.decode data = some img →
        pil.encodeJpeg (pilTransform img) = none →
        optimize_image pil data = data) ∧
      (∀ img out, startsWithBytes pdfMagic data = false →
        pil.decode data = some img →
        pil.encodeJpeg (pilTransform img) = some out →
        optimize_image pil data = out ∧
        ((∀ i o, pil.encodeJpeg i = some o → startsWithBytes jpegMagic o = true) →
          startsWithBytes jpegMagic (optimize_image pil data) = true)) := by
  intro pil data
  refine ⟨?_, ?_, ?_, ?_⟩
  · intro h; simp [optimize_image, h]
  · intro h
    unfold optimize_image
    cases hp : startsWithBytes pdfMagic data <;> simp [hp, h]
  · intro img hdec henc
    unfold optimize_image
    cases hp : startsWithBytes pdfMagic data <;> simp [hp, hdec, henc]
  · intro img out hp hdec henc
    have heq : optimize_image pil data = out := by
      unfold optimize_image
      simp [hp, hdec, henc]
    refine ⟨heq, fun hjpeg => ?_⟩
    rw [heq]
    exact hjpeg _ _ henc

/-- C9 witness: the fourth clause applied to the concrete PIL model
    that decodes the example PNG: the optimizer output is the JPEG
    re-encoding. -/
theorem optimize_image_total_fallback_witness :
    optimize_image pilPng pngExample = jpegMagic ++ [10, 10] :=
  ((optimize_image_total_fallback pilPng pngExample).2.2.2
    ⟨10, 10, "RGB"⟩ (jpegMagic ++ [10, 10]) (by decide) (by decide) rfl).1

/-- C10: content sniffing labels input jpg exactly when it starts with
    FF D8 FF, pdf exactly when it starts with the PDF magic, and png
    in every other case, including bytes that are not a valid PNG; the
    request places the label in the data URI head and its uppercase
    form in the filetype field. -/
theorem sniff_filetype_rules :
    ∀ (data : Bytes) (lang : String),
      (sniffFileType data = "jpg" ↔ startsWithBytes jpegMagic data = true) ∧
      (sniffFileType data = "pdf" ↔ startsWithBytes pdfMagic data = true) ∧
      (startsWithBytes jpegMagic data = false →
        startsWithBytes pdfMagic data = false → sniffFileType data = "png") ∧
      (build_ocr_request data lang).filetype = (sniffFileType data).toUpper ∧
      (build_ocr_request data lang).dataUriHead =
        "data:image/" ++ sniffFileType data ++ ";base64," ∧
      sniffFileType [0] = "png" := by
  intro data lang
  have hdisj : startsWithBytes pdfMagic data = true →
      startsWithBytes jpegMagic data = false := by
    intro h
    cases data with
    | nil => simp [startsWithBytes, pdfMagic] at h
    | cons b bs =>
      simp only [pdfMagic, startsWithBytes, Bool.and_eq_true, beq_iff_eq] at h
      obtain ⟨hb, h2⟩ := h
      subst hb
      simp [jpegMagic, startsWithBytes]
  refine ⟨?_, ?_, ?_, rfl, rfl, by decide⟩
  · constructor
    · intro h
      by_cases hj : startsWithBytes jpegMagic data = true
      · exact hj
      · exfalso
        unfold sniffFileType at h
        rw [if_neg hj] at h
        by_cases hp : startsWithBytes pdfMagic data = true
        · rw [if_pos hp] at h; exact absurd h (by decide)
        · rw [if_neg hp] at h; exact absurd h (by decide)
    · intro h; simp [sniffFileType, h]
  · constructor
    · intro h
      by_cases hp : startsWithBytes pdfMagic data = true
      · exact hp
      · exfalso
        unfold sniffFileType at h
        by_cases hj : startsWithBytes jpegMagic data = true
        · rw [if_pos hj] at h; exact absurd h (by decide)
        · rw [if_neg hj, if_neg hp] at h; exact absurd h (by decide)
    · intro h
      have hj := hdisj h
      simp [sniffFileType, hj, h]
  · intro hj hp
    simp [sniffFileType, hj, hp]

/-- C10 witness: the pdf clause applied to the four PDF magic bytes. -/
theorem sniff_filetype_rules_witness :
    sniffFileType [37, 80, 68, 70] = "pdf" :=
  (sniff_filetype_rules [37, 80, 68, 70] "auto").2.1.mpr (by decide)

/-- C1 is violated by the code: with caching and optimization enabled
    at their defaults, the first run of process_image on the example
    PNG issues one recognition call and stores the entry under the
    digest of the optimized bytes, because the image_data variable is
    reassigned at line 300 before save_to_cache reads it at line 334;
    the second run on the same original bytes looks the digest of the
    original bytes up, misses, and issues a second recognition call,
    so the second run performs one recognition service call instead of
    the zero the claim demands.  Both runs do return the same text. -/
theorem cache_lookup_key_mismatch :
    (process_image envOk defaultSettings pngExample state0).2.recCalls = 1 ∧
    (process_image envOk defaultSettings pngExample
        (process_image envOk defaultSettings pngExample state0).2).2.recCalls
      = 2 ∧
    get_from_cache envOk.md5hex pngExample
        (process_image envOk defaultSettings pngExample state0).2.cache
      = none ∧
    (process_image envOk defaultSettings pngExample state0).2.cache =
      [(get_cache_key envOk.md5hex (optimize_image envOk.pil pngExample),
        { text := "hello", processing_time := "1.00 секунд"
          language := "Английский", detected_language := "en" })] ∧
    get_cache_key envOk.md5hex (optimize_image envOk.pil pngExample) ≠
      get_cache_key envOk.md5hex pngExample ∧
    (process_image envOk defaultSettings pngExample
        (process_image envOk defaultSettings pngExample state0).2).1 =
      (process_image envOk defaultSettings pngExample state0).1 := by
  refine ⟨by decide, by decide, by decide, by decide, by decide, rfl⟩

/-- A state whose rate window is already full with ten admissions. -/
def stateFull : AppState :=
  { state0 with rateWindow := [0, 0, 0, 0, 0, 0, 0, 0, 0, 0] }

/-- C3 counterexample: in a two item batch whose first item fails with
    an auth error from a 403 response, the second item is still
    attempted: the loop records an outcome for it, counts it in the
    stats, and only fails it with the missing key error because the
    auth failure cleared the session key; nothing aborts the remaining
    items, contrary to the claim. -/
theorem batch_auth_not_aborting_cex :
    (runBatch envAuth defaultSettings
        [⟨"a.png", [1, 2, 3]⟩, ⟨"b.png", [4, 5, 6]⟩] state0).1 =
      [("a.png", ItemOutcome.failed .authError),
       ("b.png", ItemOutcome.failed .configError)] ∧
    (load_stats (runBatch envAuth defaultSettings
        [⟨"a.png", [1, 2, 3]⟩, ⟨"b.png", [4, 5, 6]⟩] state0).2.stats).total_processed
      = 2 ∧
    (runBatch envAuth defaultSettings
        [⟨"a.png", [1, 2, 3]⟩, ⟨"b.png", [4, 5, 6]⟩] state0).2.recCalls = 1 := by
  refine ⟨?_, ?_, ?_⟩ <;>
    norm_num [runBatch, check_rate_limit, RATE_LIMIT, rateAdvance, statRecord,
      save_to_history, process_image, get_from_cache, get_cache_key,
      ocr_space_recognize, optimize_image, check_file_size, update_stats,
      load_stats, initStats, envAuth, pilFail, state0, defaultSettings,
      startsWithBytes, pdfMagic, List.filter, List.lookup]

/-- Unfolding the batch loop at a denied admission. -/
lemma runBatch_denied (env : Env) (settings : Settings) (item : BatchItem)
    (rest : List BatchItem) (s : AppState)
    (h : (check_rate_limit (env.clock s.step) s.rateWindow).1 = false) :
    runBatch env settings (item :: rest) s =
      ([(item.name, ItemOutcome.rateLimited)], rateAdvance env s) := by
  simp [runBatch, h]

/-- Unfolding the batch loop at an oversized item. -/
lemma runBatch_tooLarge (env : Env) (settings : Settings) (item : BatchItem)
    (rest : List BatchItem) (s : AppState)
    (h1 : (check_rate_limit (env.clock s.step) s.rateWindow).1 = true)
    (h2 : check_file_size item.data = false) :
    runBatch env settings (item :: rest) s =
      ((item.name, ItemOutcome.tooLarge) ::
         (runBatch env settings rest (rateAdvance env s)).1,
       (runBatch env settings rest (rateAdvance env s)).2) := by
  simp [runBatch, h1, h2]

/-- Unfolding the batch loop at an item whose processing fails. -/
lemma runBatch_failed (env : Env) (settings : Settings) (item : BatchItem)
    (rest : List BatchItem) (s : AppState) (e : OcrError)
    (h1 : (check_rate_limit (env.clock s.step) s.rateWindow).1 = true)
    (h2 : check_file_size item.data = true)
    (h3 : (process_image env settings item.data (rateAdvance env s)).1 =
      .error e) :
    runBatch env settings (item :: rest) s =
      ((item.name, ItemOutcome.failed e) ::
         (runBatch env settings rest
           (statRecord env false item.data.length
             (process_image env settings item.data (rateAdvance env s)).2)).1,
       (runBatch env settings rest
         (statRecord env false item.data.length
           (process_image env settings item.data (rateAdvance env s)).2)).2) := by
  simp [runBatch, h1, h2, h3]

/-- Unfolding the batch loop at an item whose processing succeeds. -/
lemma runBatch_ok (env : Env) (settings : Settings) (item : BatchItem)
    (rest : List BatchItem) (s : AppState) (entry : CacheEntry)
    (h1 : (check_rate_limit (env.clock s.step) s.rateWindow).1 = true)
    (h2 : check_file_size item.data = true)
    (h3 : (process_image env settings item.data (rateAdvance env s)).1 =
      .ok entry) :
    runBatch env settings (item :: rest) s =
      ((item.name, ItemOutcome.done entry) ::
         (runBatch env settings rest
           (save_to_history entry.text entry.detected_language
             (statRecord env true item.data.length
               (process_image env settings item.data (rateAdvance env s)).2))).1,
       (runBatch env settings rest
         (save_to_history entry.text entry.detected_language
           (statRecord env true item.data.length
             (process_image env settings item.data (rateAdvance env s)).2))).2) := by
  simp [runBatch, h1, h2, h3]

/-- C3 amended: only rate limit denial aborts the remaining batch: a
    denied admission ends the loop with a distinguished outcome and
    the following items are never attempted; an item whose processing
    fails with any error, the auth error included, is recorded and the
    loop continues with the remaining items, so whenever no denial
    occurs every item of the batch receives exactly one outcome. -/
theorem batch_abort_rules :
    (∀ (env : Env) (settings : Settings) (item : BatchItem)
       (rest : List BatchItem) (s : AppState),
       (check_rate_limit (env.clock s.step) s.rateWindow).1 = false →
       runBatch env settings (item :: rest) s =
         ([(item.name, ItemOutcome.rateLimited)], rateAdvance env s)) ∧
    (∀ (env : Env) (settings : Settings) (item : BatchItem)
       (rest : List BatchItem) (s : AppState) (e : OcrError),
       (check_rate_limit (env.clock s.step) s.rateWindow).1 = true →
       check_file_size item.data = true →
       (process_image env settings item.data (rateAdvance env s)).1 = .error e →
       runBatch env settings (item :: rest) s =
         ((item.name, ItemOutcome.failed e) ::
            (runBatch env settings rest
              (statRecord env false item.data.length
                (process_image env settings item.data (rateAdvance env s)).2)).1,
          (runBatch env settings rest
            (statRecord env false item.data.length
              (process_image env settings item.data (rateAdvance env s)).2)).2)) ∧
    (∀ (env : Env) (settings : Settings) (items : List BatchItem)
       (s : AppState),
       (∀ r ∈ (runBatch env settings items s).1,
          r.2 ≠ ItemOutcome.rateLimited) →
       (runBatch env settings items s).1.length = items.length) := by
  refine ⟨?_, ?_, ?_⟩
  · exact runBatch_denied
  · exact runBatch_failed
  · intro env settings items
    induction items with
    | nil => intro s _; rfl
    | cons item rest ih =>
      intro s h
      by_cases hadm : (check_rate_limit (env.clock s.step) s.rateWindow).1 = true
      · by_cases hsz : check_file_size item.data = false
        · rw [runBatch_tooLarge env settings item rest s hadm hsz] at h ⊢
          simp only [List.mem_cons] at h
          simp only [List.length_cons]
          rw [ih _ (fun r hr => h r (Or.inr hr))]
        · have hsz2 : check_file_size item.data = true := by
            cases hq : check_file_size item.data
            · exact absurd hq hsz
            · rfl
          cases hpr : (process_image env settings item.data (rateAdvance env s)).1 with
          | ok entry =>
            rw [runBatch_ok env settings item rest s entry hadm hsz2 hpr] at h ⊢
            simp only [List.mem_cons] at h
            simp only [List.length_cons]
            rw [ih _ (fun r hr => h r (Or.inr hr))]
          | error e =>
            rw [runBatch_failed env settings item rest s e hadm hsz2 hpr] at h ⊢
            simp only [List.mem_cons] at h
            simp only [List.length_cons]
            rw [ih _ (fun r hr => h r (Or.inr hr))]
      · have hadm2 : (check_rate_limit (env.clock s.step) s.rateWindow).1 = false := by
          cases hq : (check_rate_limit (env.clock s.step) s.rateWindow).1
          · rfl
          · exact absurd hq hadm
        rw [runBatch_denied env settings item rest s hadm2] at h
        exact absurd rfl (h (item.name, ItemOutcome.rateLimited) (by simp))

/-- C3 witness: the denial clause applied to a full window: the batch
    stops at once with the rate limited outcome and the remaining
    work is never attempted. -/
theorem batch_abort_rules_witness :
    runBatch envAuth defaultSettings [⟨"a.png", [1, 2, 3]⟩] stateFull =
      ([("a.png", ItemOutcome.rateLimited)], rateAdvance envAuth stateFull) :=
  batch_abort_rules.1 envAuth defaultSettings ⟨"a.png", [1, 2, 3]⟩ [] stateFull
    (by norm_num [check_rate_limit, RATE_LIMIT, envAuth, stateFull, state0,
      List.filter])

/-- C8: an oversized item of the batch is rejected before any
    recognition service call: it contributes only the oversized
    outcome and the loop continues on a state whose recognition call
    counter is unchanged; a file of exactly one megabyte passes the
    size check and one byte more fails it; a file name passes the
    extension check exactly when the lowercased text after its last
    dot is png, jpg, jpeg or pdf, which the upload widget guarantees
    for every admitted file, and PDF names are valid. -/
theorem validation_rules :
    (∀ (env : Env) (settings : Settings) (item : BatchItem)
       (rest : List BatchItem) (s : AppState),
       (check_rate_limit (env.clock s.step) s.rateWindow).1 = true →
       check_file_size item.data = false →
       runBatch env settings (item :: rest) s =
         ((item.name, ItemOutcome.tooLarge) ::
            (runBatch env settings rest (rateAdvance env s)).1,
          (runBatch env settings rest (rateAdvance env s)).2) ∧
       (rateAdvance env s).recCalls = s.recCalls) ∧
    check_file_size (List.replicate (1 * 1024 * 1024) 0) = true ∧
    check_file_size (List.replicate (1 * 1024 * 1024 + 1) 0) = false ∧
    (∀ name : String,
       is_allowed_file name = true ↔
         ∃ ext, afterLastDot name.data = some ext ∧
           String.mk (ext.map Char.toLower) ∈ allowedExtensions) ∧
    (∀ files : List BatchItem, ∀ f ∈ uploadedFileFilter files,
       is_allowed_file f.name = true) ∧
    is_allowed_file "scan.pdf" = true ∧ is_allowed_file "scan.txt" = false := by
  refine ⟨?_, ?_, ?_, ?_, ?_, by decide, by decide⟩
  · intro env settings item rest s h1 h2
    exact ⟨runBatch_tooLarge env settings item rest s h1 h2, rfl⟩
  · unfold check_file_size
    rw [List.length_replicate]
    rfl
  · unfold check_file_size
    rw [List.length_replicate]
    rfl
  · intro name
    constructor
    · intro h
      unfold is_allowed_file at h
      cases hd : afterLastDot name.data with
      | none => rw [hd] at h; exact absurd h (by decide)
      | some ext =>
        rw [hd] at h
        refine ⟨ext, rfl, ?_⟩
        simpa [List.contains] using h
    · rintro ⟨ext, hd, hm⟩
      unfold is_allowed_file
      rw [hd]
      simpa [List.contains] using hm
  · intro files f hf
    exact (List.mem_filter.mp hf).2

/-- C8 witness: the oversized clause applied to a one byte too large
    file in a fresh state: it is skipped with the oversized outcome
    and the call counter is untouched. -/
theorem validation_rules_witness :
    runBatch envOk defaultSettings
        [⟨"big.png", List.replicate (1 * 1024 * 1024 + 1) 0⟩] state0 =
      (("big.png", ItemOutcome.tooLarge) ::
         (runBatch envOk defaultSettings [] (rateAdvance envOk state0)).1,
       (runBatch envOk defaultSettings [] (rateAdvance envOk state0)).2) ∧
      (rateAdvance envOk state0).recCalls = state0.recCalls :=
  validation_rules.1 envOk defaultSettings
    ⟨"big.png", List.replicate (1 * 1024 * 1024 + 1) 0⟩ [] state0
    (by norm_num [check_rate_limit, RATE_LIMIT, envOk, state0, List.filter])
    (by unfold check_file_size; rw [List.length_replicate]; rfl)

end OCRApp
